import Mathlib

/-!
Verification of the Infoblox NIOS Splunk SOAR connector's utility layer
(`infoblox_nios_utils.py`): the response-normalization helpers, the RPZ
CNAME canonical-value / name-formatting helpers, the single REST-call
wrapper, and the paginated REST-call loop.

Python values that can appear in parsed JSON bodies are embedded as
`JsonVal`; Python truthiness, `dict.get`, `str()` rendering and
`list.extend` are embedded explicitly so the control flow of the source
can be reproduced branch for branch.
-/

namespace InfobloxNios

/-- A parsed JSON value, as produced by `response.json()` in the source.
Numbers are embedded as integers (no claim touches fractional values). -/
inductive JsonVal where
  | null : JsonVal
  | bool : Bool → JsonVal
  | num : Int → JsonVal
  | str : String → JsonVal
  | arr : List JsonVal → JsonVal
  | obj : List (String × JsonVal) → JsonVal

/-- Python truthiness of a JSON value: `None`, `False`, `0`, `""`, `[]`
and `{}` are falsy, everything else is truthy. -/
def pyTruthy : JsonVal → Bool
  | .null => false
  | .bool b => b
  | .num n => n != 0
  | .str s => s != ""
  | .arr l => !l.isEmpty
  | .obj l => !l.isEmpty

/-- Truthiness of an optional value: Python `None` (our `none`) is falsy. -/
def truthyOpt : Option JsonVal → Bool
  | none => false
  | some v => pyTruthy v

/-- Python `d.get(k)` on a dict embedded as an association list. -/
def jsonGet (kvs : List (String × JsonVal)) (k : String) : Option JsonVal :=
  (kvs.find? (fun kv => kv.1 == k)).map (·.2)

mutual
/-- Python `repr` of a JSON value (as used when a value is rendered
inside a container). String escaping and quote selection are not
replicated; no claim depends on them. -/
def pyRepr : JsonVal → String
  | .null => "None"
  | .bool true => "True"
  | .bool false => "False"
  | .num n => toString n
  | .str s => "'" ++ s ++ "'"
  | .arr l => "[" ++ pyReprList l ++ "]"
  | .obj kvs => "\x7b" ++ pyReprKVs kvs ++ "\x7d"

/-- Comma-joined reprs of the elements of a list (Python `", ".join`). -/
def pyReprList : List JsonVal → String
  | [] => ""
  | [v] => pyRepr v
  | v :: vs => pyRepr v ++ ", " ++ pyReprList vs

/-- Comma-joined `'key': repr(value)` entries of a dict. -/
def pyReprKVs : List (String × JsonVal) → String
  | [] => ""
  | [kv] => "'" ++ kv.1 ++ "': " ++ pyRepr kv.2
  | kv :: kvs => "'" ++ kv.1 ++ "': " ++ pyRepr kv.2 ++ ", " ++ pyReprKVs kvs
end

/-- Python `str()` / f-string rendering of a JSON value: a string renders
as itself, containers render via `repr` of their elements. -/
def pyStr : JsonVal → String
  | .str s => s
  | v => pyRepr v

/-- Truthiness of an optional Python string (`None` and `""` are falsy). -/
def truthyStr : Option String → Bool
  | none => false
  | some s => s != ""

/-- Python `s.lower()`. Lowercasing beyond ASCII is not replicated; the
source only compares against ASCII method names. -/
def pyLower (s : String) : String := String.mk (s.data.map Char.toLower)

/-- Python `s.startswith(p)`. -/
def pyStartsWith (s p : String) : Bool := p.data.isPrefixOf s.data

/-- Python `s.endswith(p)`. -/
def pyEndsWith (s p : String) : Bool := p.data.isSuffixOf s.data

/-- ASCII whitespace, as stripped by Python `str.strip()` (whose further
Unicode whitespace handling is not replicated). -/
def isPySpace (c : Char) : Bool :=
  c == ' ' || c == '\t' || c == '\n' || c == '\r' || c == '\x0b' || c == '\x0c'

/-- Python `s.strip()`: drop leading and trailing whitespace. -/
def pyStrip (s : String) : String :=
  String.mk (((s.data.dropWhile isPySpace).reverse.dropWhile isPySpace).reverse)

/-- Python `pat in s` substring containment on strings. -/
def strContains (s pat : String) : Bool :=
  (List.range (s.length + 1)).any (fun i => pat.toList.isPrefixOf (s.toList.drop i))

/-! ## Constants from `infoblox_nios_consts.py` -/

def RULE_TYPE_PASSTHRU : String := "Passthru"
def RULE_TYPE_BLOCK_NO_DOMAIN : String := "Block (No such domain)"
def RULE_TYPE_BLOCK_NO_DATA : String := "Block (No data)"
def RULE_TYPE_SUBSTITUTE : String := "Substitute (domain name)"

def CANONICAL_PASSTHRU : String := "rpz-passthru"
def CANONICAL_BLOCK_NO_DOMAIN : String := ""
def CANONICAL_BLOCK_NO_DATA : String := "*"

def OBJECT_TYPE_DOMAIN : String := "Domain Name"
def OBJECT_TYPE_IP : String := "IP address"
def OBJECT_TYPE_CLIENT_IP : String := "Client IP Address"

def DEFAULT_MAX_RESULTS : Int := 1000
def DEFAULT_PAGE_SIZE : Int := 1000

def ERROR_API_UNSUPPORTED_METHOD (method : String) : String :=
  "Unsupported method " ++ method

/-! ## RPZ CNAME helpers (`format_rpz_cname_name`,
`prepare_rpz_cname_canonical_value`) -/

/-- `InfobloxNIOSUtils.format_rpz_cname_name`. The source wraps the body
in a `try/except` whose handler returns `(False, None)`; for string
inputs `str.endswith` cannot raise, so the handler is unreachable and is
not modelled. Returns `(success, formatted_name)`. -/
def format_rpz_cname_name (name rp_zone : Option String) : Bool × Option String :=
  if !truthyStr name || !truthyStr rp_zone then
    (true, none)
  else
    let n := name.getD ""
    let z := rp_zone.getD ""
    if pyEndsWith n ("." ++ z) then (true, some n)
    else (true, some (n ++ "." ++ z))

/-- `InfobloxNIOSUtils.prepare_rpz_cname_canonical_value`. A Python
`None` argument or return is `none`; a `none` result models the source
returning `None` (the failure signal for invalid combinations). -/
def prepare_rpz_cname_canonical_value (rule_type : String) (name : Option String)
    (substitute_name : Option String := none) (object_type : Option String := none)
    (reference_id : Option String := none) : Option String :=
  -- If reference_id is provided, determine object_type from it
  let object_type :=
    if truthyStr reference_id && !truthyStr object_type then
      if strContains (reference_id.getD "") ":ipaddress/" then some OBJECT_TYPE_IP
      else if strContains (reference_id.getD "") ":clientipaddress/" then some OBJECT_TYPE_CLIENT_IP
      else some OBJECT_TYPE_DOMAIN
    else object_type
  if rule_type == RULE_TYPE_BLOCK_NO_DOMAIN then
    some CANONICAL_BLOCK_NO_DOMAIN
  else if rule_type == RULE_TYPE_BLOCK_NO_DATA then
    some CANONICAL_BLOCK_NO_DATA
  else if rule_type == RULE_TYPE_PASSTHRU then
    if object_type == some OBJECT_TYPE_DOMAIN then
      if truthyStr name && pyStartsWith (name.getD "") "*" then some "infoblox-passthru"
      else name
    else if object_type == some OBJECT_TYPE_IP then
      name
    else
      -- Client IP Address
      some CANONICAL_PASSTHRU
  else if rule_type == RULE_TYPE_SUBSTITUTE then
    if object_type == some OBJECT_TYPE_DOMAIN then substitute_name
    else none
  else
    -- Default to block no data if for some reason we get here
    some CANONICAL_BLOCK_NO_DATA

/-! ## Response processing (`_process_json_response`, `_process_html_response`,
`_process_empty_response`, `_process_response`) -/

/-- The observable interface of a `requests` HTTP response, as consumed by
the response processors:
* `json` is the result of `response.json()` — `none` models the parse
  raising an exception;
* `json_error` is the text `get_error_message_from_exception` produces
  for that exception;
* `html_text` is the text BeautifulSoup extraction yields for an HTML
  body (the soup manipulation itself is pure string cleanup with no
  branching relevant to any claim);
* `content_type` is `response.headers.get("Content-Type", "")`. -/
structure HttpResponse where
  status_code : Nat
  text : String
  content_type : String
  json : Option JsonVal
  json_error : String
  html_text : String

/-- The `RetVal` pair returned by the response processors: a phantom
success status with the processed body, or an error status whose message
was set on the action result, paired with the data element of the
`RetVal` (which is `None`, `{}` or the parsed body depending on the
branch taken). -/
inductive Outcome where
  | success (body : JsonVal)
  | failure (msg : String) (body : Option JsonVal)

/-- `InfobloxNIOSUtils._process_json_response`. -/
def process_json_response (r : HttpResponse) : Outcome :=
  -- First check if the response is empty
  if r.text == "" || pyStrip r.text == "" then
    if 200 ≤ r.status_code ∧ r.status_code < 300 then
      .success (.obj [])
    else
      .failure ("Error from server. Status Code: " ++ toString r.status_code) (some (.obj []))
  else
    -- Try to parse the response as JSON
    match r.json with
    | none => .failure ("Unable to parse JSON response. Error: " ++ r.json_error) none
    | some resp_json =>
      -- Process successful responses
      if 200 ≤ r.status_code ∧ r.status_code < 300 then
        .success resp_json
      else
        -- Process error responses, extracting error details when present
        let base := "Error from server. Status Code: " ++ toString r.status_code
        let msg :=
          match resp_json with
          | .obj kvs =>
            if truthyOpt (jsonGet kvs "Error") || truthyOpt (jsonGet kvs "error") then
              let error_obj :=
                if truthyOpt (jsonGet kvs "Error") then jsonGet kvs "Error"
                else jsonGet kvs "error"
              base ++ " Error: " ++ pyStr (error_obj.getD .null)
            else if truthyOpt (jsonGet kvs "text") then
              base ++ " Details: " ++ pyStr ((jsonGet kvs "text").getD .null)
            else if truthyOpt (jsonGet kvs "msg") then
              base ++ " Message: " ++ pyStr ((jsonGet kvs "msg").getD .null)
            else base
          | _ => base
        .failure msg (some resp_json)

/-- `InfobloxNIOSUtils._process_html_response`. The BeautifulSoup text
extraction is modelled by the `html_text` field; the `except` fallback
("Cannot parse HTML response") is a value of that field, not a separate
branch, since both paths produce the same message shape. -/
def process_html_response (r : HttpResponse) : Outcome :=
  let message := "Status Code: " ++ toString r.status_code ++ ". Data from server:\n"
    ++ r.html_text ++ "\n"
  -- Escape curly braces to prevent format string interpretation issues
  let message := (message.replace "\x7b" "\x7b\x7b").replace "\x7d" "\x7d\x7d"
  .failure message none

/-- `InfobloxNIOSUtils._process_empty_response`. Note the source's range
test is `200 <= status_code < 399`. -/
def process_empty_response (r : HttpResponse) : Outcome :=
  if 200 ≤ r.status_code ∧ r.status_code < 399 then
    .success (.obj [])
  else
    .failure ("Status Code: " ++ toString r.status_code ++ ". Empty response with no data.") none

/-- `InfobloxNIOSUtils._process_response`: content-type dispatch. The
debug-data block has no effect on the returned value. The `text/plain`
branch's `try/except` cannot take its handler, since
`_process_json_response` catches the only exception it could raise. -/
def process_response (r : HttpResponse) : Outcome :=
  if strContains r.content_type "json" then
    process_json_response r
  else if strContains r.content_type "text/plain" && r.text != ""
      && pyStartsWith (pyStrip r.text) "\x7b" then
    process_json_response r
  else if strContains r.content_type "html" then
    process_html_response r
  else if r.text == "" then
    process_empty_response r
  else
    .failure ("Can't process response from server. Status Code: " ++ toString r.status_code
      ++ " Data from server: " ++ ((r.text.replace "\x7b" "\x7b\x7b").replace "\x7d" "\x7d\x7d"))
      none

/-! ## Single REST call (`make_rest_call`) -/

/-- What the network does for one issued request: either `requests`
raises (with `get_error_message_from_exception`'s text for it), or an
HTTP response arrives. URL construction, the basic-auth pair, the
Content-Type header insertion and the timeout default only shape the
outgoing request and are folded into this abstraction. -/
inductive NetResult where
  | exc (msg : String)
  | resp (r : HttpResponse)

/-- `InfobloxNIOSUtils.make_rest_call`: method validation, then the
request (abstracted as `net`), then response processing. -/
def make_rest_call (method : String) (net : NetResult) : Outcome :=
  let m := pyLower method
  if !(["get", "post", "put", "patch", "delete"].contains m) then
    .failure (ERROR_API_UNSUPPORTED_METHOD m) none
  else
    match net with
    | .exc emsg => .failure ("Error connecting to server. " ++ emsg) none
    | .resp r => process_response r

/-! ## Paginated REST call (`make_paginated_rest_call`) -/

/-- The outcome of one page's `make_rest_call`, as the pagination loop
observes it: a failed status (whose message was set on the action
result), or a successful status with the processed body. -/
inductive PageResponse where
  | fail (msg : String)
  | ok (body : JsonVal)

/-- Instrumentation record of one issued page request: the accumulator
length when the request was issued, and the `_max_results` and
`_page_id` query parameters it carried (`none` = parameter absent). -/
structure PageReq where
  accBefore : Nat
  maxResults : Int
  pageId : Option JsonVal

/-- The overall outcome of `make_paginated_rest_call`:
`RetVal(APP_SUCCESS, final_results)`, `RetVal(error_status, None)`, or
an uncaught `TypeError` escaping from `all_results.extend(...)` when a
paginated object's `result` member is not iterable. -/
inductive FetchOut where
  | success (results : List JsonVal)
  | failure (msg : String)
  | crash

/-- Python iteration of a JSON value, as `list.extend` consumes it:
a list yields its elements, a string its one-character substrings, a
dict its keys; `None`, booleans and numbers are not iterable (`none` =
`TypeError`). -/
def pyIter : JsonVal → Option (List JsonVal)
  | .arr l => some l
  | .str s => some (s.data.map (fun c => .str (String.mk [c])))
  | .obj kvs => some (kvs.map (fun kv => .str kv.1))
  | _ => none

/-- Lines 403–416 of the source: extract the page's results and the next
cursor from a page body. An object yields its `result` member (default
`[]`) as iterated by `extend`, plus its `next_page_id`; a bare array is
the whole page with no cursor; any other value is wrapped as a
single-element page with no cursor. -/
def extractPage : JsonVal → Option (List JsonVal × Option JsonVal)
  | .obj kvs => (pyIter ((jsonGet kvs "result").getD (.arr []))).map
      (fun l => (l, jsonGet kvs "next_page_id"))
  | .arr l => some (l, none)
  | v => some ([v], none)

/-- Python's `l[:k]` slice: for `k ≥ 0` the first `k` elements, for
`k < 0` all but the last `|k|` elements (clamped at zero either way). -/
def pySliceTo {α : Type} (l : List α) (k : Int) : List α :=
  if 0 ≤ k then l.take k.toNat else l.take (l.length - k.natAbs)

/-- The `while True` loop of `make_paginated_rest_call`, with the server
abstracted as the sequence of per-request `make_rest_call` outcomes
(request number ↦ outcome) and an explicit fuel bound (`none` = still
looping after `fuel` pages, which the source permits: a server that
always answers with an empty page and a fresh cursor loops forever).
State: next request index, accumulated results, last-seen cursor, and
the current `_max_results` value. Returns the issued requests and the
final outcome. -/
def fetchLoop (server : Nat → PageResponse) (limit page_size : Int) :
    Nat → Nat → List JsonVal → Option JsonVal → Int → Option (List PageReq × FetchOut)
  | 0, _, _, _, _ => none
  | fuel + 1, idx, acc, cursor, maxr =>
    -- _page_id is sent only when the cursor is truthy
    let req : PageReq := ⟨acc.length, maxr, if truthyOpt cursor then cursor else none⟩
    match server idx with
    | .fail msg => some ([req], .failure msg)
    | .ok body =>
      match extractPage body with
      | none => some ([req], .crash)
      | some (page_results, next_id) =>
        let acc' := acc ++ page_results
        -- Stop pagination if we've reached the limit or no more pages
        if truthyOpt next_id = false ∨ limit ≤ (acc'.length : Int) then
          some ([req], .success (pySliceTo acc' limit))
        else
          -- Adjust page size for next request if approaching limit
          (fetchLoop server limit page_size fuel (idx + 1) acc' next_id
            (min page_size (limit - (acc'.length : Int)))).map
            (fun p => (req :: p.1, p.2))

/-- `InfobloxNIOSUtils.make_paginated_rest_call`: resolve the `limit`
and `page_size` defaults, set the initial `_max_results` to
`min(page_size, limit)`, and run the loop from an empty accumulator with
no cursor. -/
def make_paginated_rest_call (server : Nat → PageResponse)
    (limit? page_size? : Option Int) (fuel : Nat) : Option (List PageReq × FetchOut) :=
  let limit := limit?.getD DEFAULT_MAX_RESULTS
  let page_size := page_size?.getD DEFAULT_PAGE_SIZE
  fetchLoop server limit page_size fuel 0 [] none (min page_size limit)

/-! ## Spec-side definitions and concrete scenario inputs -/

/-- The spec/claim's error-message enrichment rule as literally stated:
take the first PRESENT of the keys `Error`, `error`, `text`, `msg`.
Written from the claim's words, to be compared against
`process_json_response` (which selects the first truthy key instead). -/
def enrichFirstPresent (kvs : List (String × JsonVal)) (base : String) : String :=
  match jsonGet kvs "Error" with
  | some v => base ++ " Error: " ++ pyStr v
  | none =>
    match jsonGet kvs "error" with
    | some v => base ++ " Error: " ++ pyStr v
    | none =>
      match jsonGet kvs "text" with
      | some v => base ++ " Details: " ++ pyStr v
      | none =>
        match jsonGet kvs "msg" with
        | some v => base ++ " Message: " ++ pyStr v
        | none => base

/-- The amended enrichment rule: take the first TRUTHY of the keys
`Error`, `error`, `text`, `msg` (a present-but-empty value is skipped). -/
def enrichFirstTruthy (kvs : List (String × JsonVal)) (base : String) : String :=
  if truthyOpt (jsonGet kvs "Error") then
    base ++ " Error: " ++ pyStr ((jsonGet kvs "Error").getD .null)
  else if truthyOpt (jsonGet kvs "error") then
    base ++ " Error: " ++ pyStr ((jsonGet kvs "error").getD .null)
  else if truthyOpt (jsonGet kvs "text") then
    base ++ " Details: " ++ pyStr ((jsonGet kvs "text").getD .null)
  else if truthyOpt (jsonGet kvs "msg") then
    base ++ " Message: " ++ pyStr ((jsonGet kvs "msg").getD .null)
  else base

/-- The amended failure message of `process_json_response` for a parsed
body `j` and status `sc`: the generic message, enriched per
`enrichFirstTruthy` when the body is an object. -/
def enrichedErrorMsg (sc : Nat) (j : JsonVal) : String :=
  match j with
  | .obj kvs => enrichFirstTruthy kvs ("Error from server. Status Code: " ++ toString sc)
  | _ => "Error from server. Status Code: " ++ toString sc

/-- A body in which the key `Error` is present but empty while `msg` is
present and non-empty: the input separating present-first from
truthy-first enrichment. -/
def cexJson : JsonVal := .obj [("Error", .str ""), ("msg", .str "boom")]

/-- A 500 response carrying `cexJson`. -/
def cexResp : HttpResponse :=
  { status_code := 500, text := "\x7b\"Error\": \"\", \"msg\": \"boom\"\x7d",
    content_type := "application/json", json := some cexJson, json_error := "",
    html_text := "" }

/-- An empty-bodied response with the unassigned status code 399 and a
content type that is neither JSON nor HTML. -/
def r399 : HttpResponse :=
  { status_code := 399, text := "", content_type := "application/octet-stream",
    json := none, json_error := "", html_text := "" }

/-- What the pagination loop's body extracts from the `i`-th page
response: `none` if that request fails (or its `result` member is not
iterable), else the page's records and its cursor. -/
def pageOf (server : Nat → PageResponse) (i : Nat) : Option (List JsonVal × Option JsonVal) :=
  match server i with
  | .fail _ => none
  | .ok b => extractPage b

/-- A page body that is neither a JSON object nor an array — the
"malformed shape" of the claim (a bare scalar or string). -/
def isScalarBody : JsonVal → Bool
  | .obj _ => false
  | .arr _ => false
  | _ => true

/-- Whether a fetch outcome is the Failure case. -/
def isFailureOut : FetchOut → Bool
  | .failure _ => true
  | _ => false

/-- First page of the spec's acceptance scenario: records 0–39 and a
cursor. -/
def page1 : List JsonVal := (List.range 40).map (fun i => .num i)

/-- Second page: records 40–79 and a cursor. -/
def page2 : List JsonVal := (List.range 40).map (fun i => .num (40 + i))

/-- Third page: records 80–99 and no cursor. -/
def page3 : List JsonVal := (List.range 20).map (fun i => .num (80 + i))

/-- The acceptance scenario server: pages of sizes [40, 40, 20], cursors
present on the first two pages and absent on the third. -/
def server3 : Nat → PageResponse := fun n =>
  if n = 0 then .ok (.obj [("result", .arr page1), ("next_page_id", .str "p2")])
  else if n = 1 then .ok (.obj [("result", .arr page2), ("next_page_id", .str "p3")])
  else .ok (.obj [("result", .arr page3)])

/-- A server whose every page body is the bare string `"oops"` — not the
paginated object shape, not even an array. -/
def scalarServer : Nat → PageResponse := fun _ => .ok (.str "oops")

/-- A server whose first page succeeds (one record, cursor present) and
whose second request fails. -/
def failServer : Nat → PageResponse := fun n =>
  if n = 0 then .ok (.obj [("result", .arr [.num 1]), ("next_page_id", .str "c")])
  else .fail "boom"

/-- A server returning three records and no cursor on every page: with
`limit = 2` the single fetched page overshoots the limit. -/
def overshootServer : Nat → PageResponse := fun _ =>
  .ok (.obj [("result", .arr [.num 1, .num 2, .num 3])])

/-! ## Theorems -/

/-- C9: for non-empty `name` and `zone`, name-qualification returns `name`
unchanged when it already ends with `"." ++ zone` and otherwise returns
`name ++ "." ++ zone`; when either input is empty (or absent) it signals
"no formatting performed" — success with no formatted value; in
particular `www.example.com`/`example.com` is unchanged and
`www`/`example.com` becomes `www.example.com`. -/
theorem c9_format_rpz_cname_name_qualification (n z : String) (hn : n ≠ "") (hz : z ≠ "") :
    format_rpz_cname_name (some n) (some z) =
      (true, some (if pyEndsWith n ("." ++ z) = true then n else n ++ "." ++ z)) ∧
    format_rpz_cname_name none (some z) = (true, none) ∧
    format_rpz_cname_name (some n) none = (true, none) ∧
    format_rpz_cname_name (some "") (some z) = (true, none) ∧
    format_rpz_cname_name (some n) (some "") = (true, none) ∧
    format_rpz_cname_name (some "www.example.com") (some "example.com") =
      (true, some "www.example.com") ∧
    format_rpz_cname_name (some "www") (some "example.com") =
      (true, some "www.example.com") := by
  refine ⟨?_, by simp [format_rpz_cname_name, truthyStr],
    by simp [format_rpz_cname_name, truthyStr],
    by simp [format_rpz_cname_name, truthyStr],
    by simp [format_rpz_cname_name, truthyStr], by decide, by decide⟩
  rcases hE : pyEndsWith n ("." ++ z) <;>
    simp [format_rpz_cname_name, truthyStr, hn, hz, hE]

/-- C9 witness: the theorem applied at `name = "www"`, `zone = "example.com"`. -/
theorem c9_format_rpz_cname_name_qualification_witness :
    ("www" : String) ≠ "" ∧ ("example.com" : String) ≠ "" ∧
    format_rpz_cname_name (some "www") (some "example.com") =
      (true, some (if pyEndsWith "www" ("." ++ "example.com") = true then "www"
        else "www" ++ "." ++ "example.com")) :=
  ⟨by decide, by decide,
    (c9_format_rpz_cname_name_qualification "www" "example.com" (by decide) (by decide)).1⟩

/-- C4: the canonical-value derivation matches the reference table on
every enumerated rule kind × object kind: block-no-such-domain yields
`""` and block-no-data yields `"*"` for every object kind; pass-through
yields the name itself for domain and address objects except that a
domain name starting with `*` yields the sentinel `infoblox-passthru`,
and always yields `rpz-passthru` for client-address objects; substitute
yields the caller-supplied substitute target for domain objects and
returns the `None` failure signal for non-domain objects. -/
theorem c4_prepare_rpz_cname_canonical_value_table (name subst : String)
    (ref : Option String) (ot : String)
    (hot : ot = OBJECT_TYPE_DOMAIN ∨ ot = OBJECT_TYPE_IP ∨ ot = OBJECT_TYPE_CLIENT_IP) :
    prepare_rpz_cname_canonical_value RULE_TYPE_BLOCK_NO_DOMAIN (some name) (some subst)
      (some ot) ref = some "" ∧
    prepare_rpz_cname_canonical_value RULE_TYPE_BLOCK_NO_DATA (some name) (some subst)
      (some ot) ref = some "*" ∧
    prepare_rpz_cname_canonical_value RULE_TYPE_PASSTHRU (some name) (some subst)
      (some OBJECT_TYPE_DOMAIN) ref =
      (if pyStartsWith name "*" = true then some "infoblox-passthru" else some name) ∧
    prepare_rpz_cname_canonical_value RULE_TYPE_PASSTHRU (some name) (some subst)
      (some OBJECT_TYPE_IP) ref = some name ∧
    prepare_rpz_cname_canonical_value RULE_TYPE_PASSTHRU (some name) (some subst)
      (some OBJECT_TYPE_CLIENT_IP) ref = some "rpz-passthru" ∧
    prepare_rpz_cname_canonical_value RULE_TYPE_SUBSTITUTE (some name) (some subst)
      (some OBJECT_TYPE_DOMAIN) ref = some subst ∧
    prepare_rpz_cname_canonical_value RULE_TYPE_SUBSTITUTE (some name) (some subst)
      (some OBJECT_TYPE_IP) ref = none ∧
    prepare_rpz_cname_canonical_value RULE_TYPE_SUBSTITUTE (some name) (some subst)
      (some OBJECT_TYPE_CLIENT_IP) ref = none := by
  refine ⟨rfl, rfl, ?_, ?_, ?_, ?_, ?_, ?_⟩
  · rcases hE : pyStartsWith name "*" with _ | _
    · simp [prepare_rpz_cname_canonical_value, truthyStr, hE, RULE_TYPE_PASSTHRU,
        RULE_TYPE_BLOCK_NO_DOMAIN, RULE_TYPE_BLOCK_NO_DATA, RULE_TYPE_SUBSTITUTE,
        OBJECT_TYPE_DOMAIN, OBJECT_TYPE_IP, OBJECT_TYPE_CLIENT_IP]
    · have hne : name ≠ "" := by
        intro h
        rw [h] at hE
        exact absurd hE (by decide)
      simp [prepare_rpz_cname_canonical_value, truthyStr, hne, hE, RULE_TYPE_PASSTHRU,
        RULE_TYPE_BLOCK_NO_DOMAIN, RULE_TYPE_BLOCK_NO_DATA, RULE_TYPE_SUBSTITUTE,
        OBJECT_TYPE_DOMAIN, OBJECT_TYPE_IP, OBJECT_TYPE_CLIENT_IP]
  all_goals simp [prepare_rpz_cname_canonical_value, truthyStr, RULE_TYPE_PASSTHRU,
    RULE_TYPE_BLOCK_NO_DOMAIN, RULE_TYPE_BLOCK_NO_DATA, RULE_TYPE_SUBSTITUTE,
    OBJECT_TYPE_DOMAIN, OBJECT_TYPE_IP, OBJECT_TYPE_CLIENT_IP, CANONICAL_PASSTHRU]

/-- C4 witness: the theorem applied at `name = "*.evil.com"`,
`subst = "sub.example.com"`, object kind = address, no reference id:
substitute for an address object signals failure, and pass-through for a
wildcard domain name yields the sentinel. -/
theorem c4_prepare_rpz_cname_canonical_value_table_witness :
    (OBJECT_TYPE_IP = OBJECT_TYPE_DOMAIN ∨ OBJECT_TYPE_IP = OBJECT_TYPE_IP ∨
      OBJECT_TYPE_IP = OBJECT_TYPE_CLIENT_IP) ∧
    prepare_rpz_cname_canonical_value RULE_TYPE_SUBSTITUTE (some "*.evil.com")
      (some "sub.example.com") (some OBJECT_TYPE_IP) none = none ∧
    prepare_rpz_cname_canonical_value RULE_TYPE_PASSTHRU (some "*.evil.com")
      (some "sub.example.com") (some OBJECT_TYPE_DOMAIN) none =
      (if pyStartsWith "*.evil.com" "*" = true then some "infoblox-passthru"
        else some "*.evil.com") :=
  ⟨Or.inr (Or.inl rfl),
    (c4_prepare_rpz_cname_canonical_value_table "*.evil.com" "sub.example.com" none
      OBJECT_TYPE_IP (Or.inr (Or.inl rfl))).2.2.2.2.2.2.1,
    (c4_prepare_rpz_cname_canonical_value_table "*.evil.com" "sub.example.com" none
      OBJECT_TYPE_IP (Or.inr (Or.inl rfl))).2.2.1⟩

/-- C10: for every rule-kind value outside the four enumerated kinds, the
canonical-value derivation does not signal failure: it falls through to
the default branch and returns the block-no-data literal `"*"`, for
every name, substitute target, object kind and reference id. -/
theorem c10_prepare_rpz_cname_canonical_value_default (rule_type : String)
    (h1 : rule_type ≠ RULE_TYPE_PASSTHRU) (h2 : rule_type ≠ RULE_TYPE_BLOCK_NO_DOMAIN)
    (h3 : rule_type ≠ RULE_TYPE_BLOCK_NO_DATA) (h4 : rule_type ≠ RULE_TYPE_SUBSTITUTE)
    (name subst ot ref : Option String) :
    prepare_rpz_cname_canonical_value rule_type name subst ot ref =
      some CANONICAL_BLOCK_NO_DATA := by
  simp only [prepare_rpz_cname_canonical_value, beq_iff_eq, h1, h2, h3, h4, if_false]

/-- C10 witness: the theorem applied at the out-of-enumeration rule kind
`"Bogus"` with a domain object kind. -/
theorem c10_prepare_rpz_cname_canonical_value_default_witness :
    ("Bogus" : String) ≠ RULE_TYPE_PASSTHRU ∧ ("Bogus" : String) ≠ RULE_TYPE_BLOCK_NO_DOMAIN ∧
    ("Bogus" : String) ≠ RULE_TYPE_BLOCK_NO_DATA ∧ ("Bogus" : String) ≠ RULE_TYPE_SUBSTITUTE ∧
    prepare_rpz_cname_canonical_value "Bogus" (some "www.example.com") none
      (some OBJECT_TYPE_DOMAIN) none = some CANONICAL_BLOCK_NO_DATA :=
  ⟨by decide, by decide, by decide, by decide,
    c10_prepare_rpz_cname_canonical_value_default "Bogus" (by decide) (by decide) (by decide)
      (by decide) (some "www.example.com") none (some OBJECT_TYPE_DOMAIN) none⟩

/-- C8: a method whose lowercasing is outside
`{get, post, put, patch, delete}` is rejected by `make_rest_call` with
the message `Unsupported method <method>`, and the result does not
depend on what the network would have done — no I/O is consulted; for
each method in `{GET, POST, PUT, PATCH, DELETE}` no such rejection
occurs: the call proceeds to the network and its response processing. -/
theorem c8_make_rest_call_method_validation (method : String) (net net' : NetResult) :
    (pyLower method ∉ (["get", "post", "put", "patch", "delete"] : List String) →
      make_rest_call method net =
        .failure (ERROR_API_UNSUPPORTED_METHOD (pyLower method)) none ∧
      make_rest_call method net = make_rest_call method net') ∧
    (method ∈ (["GET", "POST", "PUT", "PATCH", "DELETE"] : List String) →
      make_rest_call method net = (match net with
        | .exc emsg => .failure ("Error connecting to server. " ++ emsg) none
        | .resp r => process_response r)) := by
  constructor
  · intro h
    simp only [List.mem_cons, List.not_mem_nil, or_false, not_or] at h
    obtain ⟨hg, hp, hu, ht, hd⟩ := h
    constructor <;> simp [make_rest_call, hg, hp, hu, ht, hd]
  · intro h
    simp only [List.mem_cons, List.not_mem_nil, or_false] at h
    rcases h with rfl | rfl | rfl | rfl | rfl <;> cases net <;> rfl

/-- C8 witness: the theorem applied at the unsupported method `"FROB"`
(rejected identically whatever the network would answer) and at the
supported method `"GET"` (not rejected; the transport error surfaces). -/
theorem c8_make_rest_call_method_validation_witness :
    pyLower "FROB" ∉ (["get", "post", "put", "patch", "delete"] : List String) ∧
    make_rest_call "FROB" (.exc "timeout") =
      .failure (ERROR_API_UNSUPPORTED_METHOD (pyLower "FROB")) none ∧
    make_rest_call "FROB" (.exc "timeout") = make_rest_call "FROB" (.exc "refused") ∧
    ("GET" : String) ∈ (["GET", "POST", "PUT", "PATCH", "DELETE"] : List String) ∧
    make_rest_call "GET" (.exc "timeout") =
      .failure ("Error connecting to server. " ++ "timeout") none :=
  ⟨by decide,
    ((c8_make_rest_call_method_validation "FROB" (.exc "timeout") (.exc "refused")).1
      (by decide)).1,
    ((c8_make_rest_call_method_validation "FROB" (.exc "timeout") (.exc "refused")).1
      (by decide)).2,
    by decide,
    (c8_make_rest_call_method_validation "GET" (.exc "timeout") (.exc "refused")).2
      (by decide)⟩

/-- C5 counterexample: on the body `{"Error": "", "msg": "boom"}` with
status 500, the code enriches the failure message from `msg` (the first
truthy key), while the claim's first-present rule selects `Error` and
would produce a different message — so the claim as stated is false at
this input. -/
theorem c5_process_json_response_counterexample :
    process_json_response cexResp =
      .failure ("Error from server. Status Code: 500 Message: boom") (some cexJson) ∧
    enrichFirstPresent [("Error", .str ""), ("msg", .str "boom")]
      "Error from server. Status Code: 500" =
      "Error from server. Status Code: 500 Error: " ∧
    ("Error from server. Status Code: 500 Message: boom" : String) ≠
      "Error from server. Status Code: 500 Error: " :=
  ⟨rfl, rfl, by decide⟩

/-- C5 (amended): for a JSON-classified response — a parseable body with
status in [200,300) yields Success(parsed body); an empty body with a
2xx status yields Success(empty object); a parseable body with status
outside [200,300) yields Failure whose message is enriched from the
first TRUTHY of the keys `Error`, `error`, `text`, `msg` when the body
is an object, else is the generic status-code message; an unparseable
non-empty body yields Failure. -/
theorem c5_process_json_response_classification (r : HttpResponse) (j : JsonVal) :
    ((r.text = "" ∨ pyStrip r.text = "") → 200 ≤ r.status_code → r.status_code < 300 →
      process_json_response r = .success (.obj [])) ∧
    (¬(r.text = "" ∨ pyStrip r.text = "") → r.json = some j →
      200 ≤ r.status_code → r.status_code < 300 →
      process_json_response r = .success j) ∧
    (¬(r.text = "" ∨ pyStrip r.text = "") → r.json = some j →
      ¬(200 ≤ r.status_code ∧ r.status_code < 300) →
      process_json_response r = .failure (enrichedErrorMsg r.status_code j) (some j)) ∧
    (¬(r.text = "" ∨ pyStrip r.text = "") → r.json = none →
      process_json_response r =
        .failure ("Unable to parse JSON response. Error: " ++ r.json_error) none) := by
  refine ⟨?_, ?_, ?_, ?_⟩
  · intro h h1 h2
    have hb : (r.text == "" || pyStrip r.text == "") = true := by
      rcases h with h | h <;> simp [h]
    simp [process_json_response, hb, h1, h2]
  · intro h hj h1 h2
    rw [not_or] at h
    have hb : (r.text == "" || pyStrip r.text == "") = false := by
      simp [h.1, h.2]
    simp [process_json_response, hb, hj, h1, h2]
  · intro h hj hc
    rw [not_or] at h
    have hb : (r.text == "" || pyStrip r.text == "") = false := by
      simp [h.1, h.2]
    simp only [process_json_response, hb, Bool.false_eq_true, if_false, hj, if_neg hc]
    cases j with
    | obj kvs =>
      simp only [enrichedErrorMsg]
      by_cases hE : truthyOpt (jsonGet kvs "Error") = true
      · simp [enrichFirstTruthy, hE]
      · by_cases he : truthyOpt (jsonGet kvs "error") = true
        · simp [enrichFirstTruthy, hE, he]
        · by_cases ht : truthyOpt (jsonGet kvs "text") = true
          · simp [enrichFirstTruthy, hE, he, ht]
          · by_cases hm : truthyOpt (jsonGet kvs "msg") = true <;>
              simp [enrichFirstTruthy, hE, he, ht, hm]
    | null => rfl
    | bool b => rfl
    | num n => rfl
    | str s => rfl
    | arr l => rfl
  · intro h hj
    rw [not_or] at h
    have hb : (r.text == "" || pyStrip r.text == "") = false := by
      simp [h.1, h.2]
    simp [process_json_response, hb, hj]

/-- C5 witness: the amended theorem applied at `cexResp` (non-empty
body, parsed object, status 500): the Failure message is the
truthy-enriched one. -/
theorem c5_process_json_response_classification_witness :
    ¬(cexResp.text = "" ∨ pyStrip cexResp.text = "") ∧
    cexResp.json = some cexJson ∧
    ¬(200 ≤ cexResp.status_code ∧ cexResp.status_code < 300) ∧
    process_json_response cexResp =
      .failure (enrichedErrorMsg cexResp.status_code cexJson) (some cexJson) :=
  ⟨by decide, rfl, by decide,
    (c5_process_json_response_classification cexResp cexJson).2.2.1 (by decide) rfl
      (by decide)⟩

/-- C6 counterexample: an empty-bodied response with status 399 (inside
the claim's `[200,400)` range) and a non-JSON non-HTML content type is a
Failure, not the Success the claim requires. -/
theorem c6_process_response_status399_counterexample :
    process_response r399 =
      .failure ("Status Code: " ++ toString (399 : Nat) ++ ". Empty response with no data.")
        none ∧
    (200 ≤ 399 ∧ 399 < 400) ∧
    Outcome.failure ("Status Code: " ++ toString (399 : Nat) ++ ". Empty response with no data.")
        none ≠ Outcome.success (.obj []) :=
  ⟨rfl, by decide, fun h => Outcome.noConfusion h⟩

/-- C6 (amended): for an empty-bodied response whose content type is
neither JSON nor HTML, the dispatcher routes to the empty-response
handler, which returns Success(empty object) iff the status code is in
[200,399), and otherwise a Failure with the generic status-code
message. -/
theorem c6_process_response_empty_range (r : HttpResponse)
    (hjson : strContains r.content_type "json" = false)
    (hhtml : strContains r.content_type "html" = false)
    (htext : r.text = "") :
    ((process_response r = .success (.obj [])) ↔ (200 ≤ r.status_code ∧ r.status_code < 399)) ∧
    (¬(200 ≤ r.status_code ∧ r.status_code < 399) →
      process_response r =
        .failure ("Status Code: " ++ toString r.status_code ++ ". Empty response with no data.")
          none) := by
  have hd : process_response r = process_empty_response r := by
    simp [process_response, hjson, hhtml, htext]
  rw [hd]
  by_cases hr : 200 ≤ r.status_code ∧ r.status_code < 399
  · constructor
    · simp [process_empty_response, hr]
    · intro h; exact absurd hr h
  · constructor
    · rw [process_empty_response, if_neg hr]
      constructor
      · intro h; exact absurd (Outcome.noConfusion h) id
      · intro h; exact absurd h hr
    · intro _; rw [process_empty_response, if_neg hr]

/-- C6 witness: the amended theorem applied at `r399`: status 399 is
outside [200,399), so the result is the generic Failure. -/
theorem c6_process_response_empty_range_witness :
    strContains r399.content_type "json" = false ∧
    strContains r399.content_type "html" = false ∧
    r399.text = "" ∧
    ¬(200 ≤ r399.status_code ∧ r399.status_code < 399) ∧
    process_response r399 =
      .failure ("Status Code: " ++ toString r399.status_code ++ ". Empty response with no data.")
        none :=
  ⟨by decide, by decide, rfl, by decide,
    (c6_process_response_empty_range r399 (by decide) (by decide) rfl).2 (by decide)⟩

/-- A completed loop issued at least one request, and the first request
records the state the loop entered with: the current accumulator length,
the current `_max_results`, and the cursor parameter (present iff the
cursor is truthy). -/
theorem fetchLoop_head (server : Nat → PageResponse) (limit psz : Int) (fuel idx : Nat)
    (acc : List JsonVal) (cursor : Option JsonVal) (maxr : Int) (reqs : List PageReq)
    (out : FetchOut) (h : fetchLoop server limit psz fuel idx acc cursor maxr = some (reqs, out)) :
    ∃ rest, reqs =
      ⟨acc.length, maxr, if truthyOpt cursor = true then cursor else none⟩ :: rest := by
  cases fuel with
  | zero => exact absurd h (by simp [fetchLoop])
  | succ fuel =>
    simp only [fetchLoop] at h
    split at h
    · simp only [Option.some.injEq, Prod.mk.injEq] at h
      exact ⟨[], h.1.symm⟩
    · split at h
      · simp only [Option.some.injEq, Prod.mk.injEq] at h
        exact ⟨[], h.1.symm⟩
      · split at h
        · simp only [Option.some.injEq, Prod.mk.injEq] at h
          exact ⟨[], h.1.symm⟩
        · rcases Option.map_eq_some'.mp h with ⟨⟨rs, o⟩, _, heq⟩
          simp only [Prod.mk.injEq] at heq
          exact ⟨rs, heq.1.symm⟩

/-- Every successful loop outcome is a Python `[:limit]` slice of some
accumulator value. -/
theorem fetchLoop_success_shape (server : Nat → PageResponse) (limit psz : Int) :
    ∀ (fuel idx : Nat) (acc : List JsonVal) (cursor : Option JsonVal) (maxr : Int)
      (reqs : List PageReq) (res : List JsonVal),
      fetchLoop server limit psz fuel idx acc cursor maxr = some (reqs, .success res) →
      ∃ a : List JsonVal, res = pySliceTo a limit := by
  intro fuel
  induction fuel with
  | zero => intro idx acc cursor maxr reqs res h; exact absurd h (by simp [fetchLoop])
  | succ fuel ih =>
    intro idx acc cursor maxr reqs res h
    simp only [fetchLoop] at h
    split at h
    · simp at h
    · split at h
      · simp at h
      · split at h
        · simp only [Option.some.injEq, Prod.mk.injEq, FetchOut.success.injEq] at h
          exact ⟨_, h.2.symm⟩
        · rcases Option.map_eq_some'.mp h with ⟨⟨rs, o⟩, hrec, heq⟩
          simp only [Prod.mk.injEq] at heq
          rw [heq.2] at hrec
          exact ih _ _ _ _ rs res hrec

/-- Invariant: if the loop is entered with `_max_results` equal to
`min(page_size, limit - len(acc))` — as it is on the first request —
then every request it ever issues carries `_max_results =
min(page_size, limit - records accumulated so far)`. -/
theorem fetchLoop_maxResults_inv (server : Nat → PageResponse) (limit psz : Int) :
    ∀ (fuel idx : Nat) (acc : List JsonVal) (cursor : Option JsonVal) (maxr : Int)
      (reqs : List PageReq) (out : FetchOut),
      maxr = min psz (limit - (acc.length : Int)) →
      fetchLoop server limit psz fuel idx acc cursor maxr = some (reqs, out) →
      ∀ r ∈ reqs, r.maxResults = min psz (limit - (r.accBefore : Int)) := by
  intro fuel
  induction fuel with
  | zero => intro idx acc cursor maxr reqs out hm h; exact absurd h (by simp [fetchLoop])
  | succ fuel ih =>
    intro idx acc cursor maxr reqs out hm h
    simp only [fetchLoop] at h
    split at h
    · simp only [Option.some.injEq, Prod.mk.injEq] at h
      intro r hr
      rw [← h.1] at hr
      simp only [List.mem_singleton] at hr
      subst hr
      exact hm
    · split at h
      · simp only [Option.some.injEq, Prod.mk.injEq] at h
        intro r hr
        rw [← h.1] at hr
        simp only [List.mem_singleton] at hr
        subst hr
        exact hm
      · split at h
        · simp only [Option.some.injEq, Prod.mk.injEq] at h
          intro r hr
          rw [← h.1] at hr
          simp only [List.mem_singleton] at hr
          subst hr
          exact hm
        · rcases Option.map_eq_some'.mp h with ⟨⟨rs, o⟩, hrec, heq⟩
          simp only [Prod.mk.injEq] at heq
          intro r hr
          rw [← heq.1] at hr
          rcases List.mem_cons.mp hr with rfl | hr'
          · exact hm
          · exact ih _ _ _ _ rs o rfl hrec r hr'

/-- Whenever a request after the first was issued (the loop continued
past a page), that page's response carried a truthy cursor and the
accumulated record count — recorded as the next request's `accBefore` —
was still below the limit. -/
theorem fetchLoop_continues (server : Nat → PageResponse) (limit psz : Int) :
    ∀ (fuel idx : Nat) (acc : List JsonVal) (cursor : Option JsonVal) (maxr : Int)
      (reqs : List PageReq) (out : FetchOut),
      fetchLoop server limit psz fuel idx acc cursor maxr = some (reqs, out) →
      ∀ (k : Nat) (r' : PageReq), reqs[k + 1]? = some r' →
        ∃ pr nid, pageOf server (idx + k) = some (pr, nid) ∧ truthyOpt nid = true ∧
          (r'.accBefore : Int) < limit := by
  intro fuel
  induction fuel with
  | zero => intro idx acc cursor maxr reqs out h; exact absurd h (by simp [fetchLoop])
  | succ fuel ih =>
    intro idx acc cursor maxr reqs out h
    simp only [fetchLoop] at h
    split at h
    · simp only [Option.some.injEq, Prod.mk.injEq] at h
      intro k r' hk
      rw [← h.1] at hk
      simp at hk
    · rename_i body hbody
      split at h
      · simp only [Option.some.injEq, Prod.mk.injEq] at h
        intro k r' hk
        rw [← h.1] at hk
        simp at hk
      · rename_i page_results next_id hext
        split at h
        · simp only [Option.some.injEq, Prod.mk.injEq] at h
          intro k r' hk
          rw [← h.1] at hk
          simp at hk
        · rename_i hcond
          rw [not_or] at hcond
          rcases Option.map_eq_some'.mp h with ⟨⟨rs, o⟩, hrec, heq⟩
          simp only [Prod.mk.injEq] at heq
          intro k r' hk
          rw [← heq.1] at hk
          cases k with
          | zero =>
            rcases fetchLoop_head server limit psz fuel (idx + 1) (acc ++ page_results)
              next_id (min psz (limit - ((acc ++ page_results).length : Int))) rs o hrec
              with ⟨rest, hrs⟩
            rw [hrs] at hk
            simp only [List.getElem?_cons_succ, List.getElem?_cons_zero,
              Option.some.injEq] at hk
            refine ⟨page_results, next_id, ?_, ?_, ?_⟩
            · simp [pageOf, hbody, hext]
            · rcases hb : truthyOpt next_id with _ | _
              · exact absurd hb hcond.1
              · rfl
            · rw [← hk]
              simpa using lt_of_not_le hcond.2
          | succ k' =>
            have harith : idx + (k' + 1) = (idx + 1) + k' := by omega
            rw [harith]
            exact ih _ _ _ _ rs o hrec k' r' (by simpa using hk)

/-- If the `k`-th issued request's page call failed, the loop's outcome
is exactly that failure (no records are returned) and the failing
request is the last one issued. -/
theorem fetchLoop_fail_last (server : Nat → PageResponse) (limit psz : Int) :
    ∀ (fuel idx : Nat) (acc : List JsonVal) (cursor : Option JsonVal) (maxr : Int)
      (reqs : List PageReq) (out : FetchOut),
      fetchLoop server limit psz fuel idx acc cursor maxr = some (reqs, out) →
      ∀ (k : Nat) (msg : String), k < reqs.length → server (idx + k) = .fail msg →
        out = .failure msg ∧ reqs.length = k + 1 := by
  intro fuel
  induction fuel with
  | zero => intro idx acc cursor maxr reqs out h; exact absurd h (by simp [fetchLoop])
  | succ fuel ih =>
    intro idx acc cursor maxr reqs out h
    simp only [fetchLoop] at h
    split at h
    · rename_i msg0 hbody
      simp only [Option.some.injEq, Prod.mk.injEq] at h
      intro k msg hk hf
      rw [← h.1] at hk
      simp only [List.length_singleton] at hk
      have hk0 : k = 0 := Nat.lt_one_iff.mp hk
      subst hk0
      rw [Nat.add_zero, hbody] at hf
      have : msg0 = msg := PageResponse.fail.inj hf
      subst this
      exact ⟨h.2.symm, by rw [← h.1]; rfl⟩
    · rename_i body hbody
      split at h
      · simp only [Option.some.injEq, Prod.mk.injEq] at h
        intro k msg hk hf
        rw [← h.1] at hk
        simp only [List.length_singleton] at hk
        have hk0 : k = 0 := Nat.lt_one_iff.mp hk
        subst hk0
        rw [Nat.add_zero, hbody] at hf
        exact PageResponse.noConfusion hf
      · split at h
        · simp only [Option.some.injEq, Prod.mk.injEq] at h
          intro k msg hk hf
          rw [← h.1] at hk
          simp only [List.length_singleton] at hk
          have hk0 : k = 0 := Nat.lt_one_iff.mp hk
          subst hk0
          rw [Nat.add_zero, hbody] at hf
          exact PageResponse.noConfusion hf
        · rcases Option.map_eq_some'.mp h with ⟨⟨rs, o⟩, hrec, heq⟩
          simp only [Prod.mk.injEq] at heq
          intro k msg hk hf
          cases k with
          | zero =>
            rw [Nat.add_zero, hbody] at hf
            exact PageResponse.noConfusion hf
          | succ k' =>
            rw [← heq.1] at hk
            simp only [List.length_cons] at hk
            have hk' : k' < rs.length := by omega
            have harith : idx + (k' + 1) = (idx + 1) + k' := by omega
            rw [harith] at hf
            rcases ih _ _ _ _ rs o hrec k' msg hk' hf with ⟨ho, hlen⟩
            constructor
            · rw [← heq.2]; exact ho
            · rw [← heq.1]
              simp only [List.length_cons, hlen]

/-- C1: for positive `limit` and `page_size`, whenever the paginated
fetch completes successfully, the returned sequence has length at most
`limit`, and is exactly the first-`limit` prefix of the accumulated
results (the final `all_results[:limit]` trim), even if the final page
overshot. -/
theorem c1_make_paginated_rest_call_limit (server : Nat → PageResponse)
    (limit page_size : Int) (fuel : Nat) (reqs : List PageReq) (res : List JsonVal)
    (hlim : 0 < limit) (hps : 0 < page_size)
    (h : make_paginated_rest_call server (some limit) (some page_size) fuel =
      some (reqs, .success res)) :
    (res.length : Int) ≤ limit ∧ ∃ a : List JsonVal, res = a.take limit.toNat := by
  simp only [make_paginated_rest_call, Option.getD_some] at h
  rcases fetchLoop_success_shape server limit page_size fuel 0 [] none _ reqs res h
    with ⟨a, ha⟩
  have hslice : pySliceTo a limit = a.take limit.toNat := by
    rw [pySliceTo, if_pos (le_of_lt hlim)]
  constructor
  · rw [ha, hslice]
    simp only [List.length_take]
    omega
  · exact ⟨a, ha.trans hslice⟩

/-- C1 witness: the theorem applied to a server that returns three
records in one cursor-less page against `limit = 2`: the result is the
two-record prefix. -/
theorem c1_make_paginated_rest_call_limit_witness :
    (0 : Int) < 2 ∧ (0 : Int) < 1000 ∧
    make_paginated_rest_call overshootServer (some 2) (some 1000) 3 =
      some ([⟨0, 2, none⟩], .success [.num 1, .num 2]) ∧
    (([.num 1, .num 2] : List JsonVal).length : Int) ≤ 2 ∧
    ∃ a : List JsonVal, ([.num 1, .num 2] : List JsonVal) = a.take (2 : Int).toNat :=
  ⟨by decide, by decide, rfl,
    (c1_make_paginated_rest_call_limit overshootServer 2 1000 3 [⟨0, 2, none⟩]
      [.num 1, .num 2] (by decide) (by decide) rfl).1,
    (c1_make_paginated_rest_call_limit overshootServer 2 1000 3 [⟨0, 2, none⟩]
      [.num 1, .num 2] (by decide) (by decide) rfl).2⟩

/-- C2: the paginated fetch follows the prescribed protocol — every
issued request carries `_max_results = min(page_size, limit -
records_accumulated_so_far)`; the loop only continues past a page whose
response carried a truthy `next_page_id` cursor while the accumulated
count was still below `limit` (so it stops when the cursor is absent or
the limit is reached); and on the acceptance scenario — server pages of
sizes [40, 40, 20], cursors on the first two only, `limit = 1000` —
exactly 3 requests are issued and exactly 100 records are returned in
page order. -/
theorem c2_make_paginated_rest_call_protocol :
    (∀ (server : Nat → PageResponse) (limit psz : Int) (fuel : Nat)
      (reqs : List PageReq) (out : FetchOut),
      make_paginated_rest_call server (some limit) (some psz) fuel = some (reqs, out) →
      (∀ r ∈ reqs, r.maxResults = min psz (limit - (r.accBefore : Int))) ∧
      (∀ (k : Nat) (r' : PageReq), reqs[k + 1]? = some r' →
        ∃ pr nid, pageOf server k = some (pr, nid) ∧ truthyOpt nid = true ∧
          (r'.accBefore : Int) < limit)) ∧
    make_paginated_rest_call server3 (some 1000) (some 1000) 10 =
      some ([⟨0, 1000, none⟩, ⟨40, 960, some (.str "p2")⟩, ⟨80, 920, some (.str "p3")⟩],
        .success (page1 ++ page2 ++ page3)) ∧
    (page1 ++ page2 ++ page3).length = 100 := by
  refine ⟨?_, rfl, rfl⟩
  intro server limit psz fuel reqs out h
  simp only [make_paginated_rest_call, Option.getD_some] at h
  constructor
  · exact fetchLoop_maxResults_inv server limit psz fuel 0 [] none _ reqs out (by simp) h
  · intro k r' hk
    have := fetchLoop_continues server limit psz fuel 0 [] none _ reqs out h k r' hk
    simpa using this

/-- C2 witness: the protocol theorem applied to the acceptance-scenario
run: the second request (issued with 40 records accumulated) carried
`_max_results = min(1000, 1000 - 40) = 960`. -/
theorem c2_make_paginated_rest_call_protocol_witness :
    make_paginated_rest_call server3 (some 1000) (some 1000) 10 =
      some ([⟨0, 1000, none⟩, ⟨40, 960, some (.str "p2")⟩, ⟨80, 920, some (.str "p3")⟩],
        .success (page1 ++ page2 ++ page3)) ∧
    (⟨40, 960, some (.str "p2")⟩ : PageReq).maxResults =
      min 1000 (1000 - (((⟨40, 960, some (.str "p2")⟩ : PageReq).accBefore : Nat) : Int)) :=
  ⟨rfl,
    (c2_make_paginated_rest_call_protocol.1 server3 1000 1000 10
      [⟨0, 1000, none⟩, ⟨40, 960, some (.str "p2")⟩, ⟨80, 920, some (.str "p3")⟩]
      (.success (page1 ++ page2 ++ page3)) rfl).1 ⟨40, 960, some (.str "p2")⟩
      (List.mem_cons_of_mem _ (List.mem_cons_self _ _))⟩

/-- C3: if the `k`-th page request of a paginated fetch fails, the whole
fetch returns that page's Failure — the failing request is the last one
issued, the outcome is the Failure (which carries no record sequence:
the `RetVal` data is `None`), and no Success with the prior pages'
records is returned. -/
theorem c3_make_paginated_rest_call_fail_aborts (server : Nat → PageResponse)
    (limit psz : Int) (fuel : Nat) (reqs : List PageReq) (out : FetchOut)
    (k : Nat) (msg : String)
    (h : make_paginated_rest_call server (some limit) (some psz) fuel = some (reqs, out))
    (hk : k < reqs.length) (hf : server k = .fail msg) :
    out = .failure msg ∧ reqs.length = k + 1 := by
  simp only [make_paginated_rest_call, Option.getD_some] at h
  exact fetchLoop_fail_last server limit psz fuel 0 [] none _ reqs out h k msg hk
    (by simpa using hf)

/-- C3 witness: the theorem applied to a server whose second request
fails: the fetch returns `Failure "boom"` after two requests, without
the record fetched on page 1. -/
theorem c3_make_paginated_rest_call_fail_aborts_witness :
    make_paginated_rest_call failServer (some 1000) (some 1000) 5 =
      some ([⟨0, 1000, none⟩, ⟨1, 999, some (.str "c")⟩], .failure "boom") ∧
    (1 : Nat) < ([⟨0, 1000, none⟩, ⟨1, 999, some (.str "c")⟩] : List PageReq).length ∧
    failServer 1 = .fail "boom" ∧
    FetchOut.failure "boom" = FetchOut.failure "boom" ∧
    ([⟨0, 1000, none⟩, ⟨1, 999, some (.str "c")⟩] : List PageReq).length = 1 + 1 :=
  ⟨rfl, by decide, rfl,
    (c3_make_paginated_rest_call_fail_aborts failServer 1000 1000 5
      [⟨0, 1000, none⟩, ⟨1, 999, some (.str "c")⟩] (.failure "boom") 1 "boom" rfl
      (by decide) rfl).1,
    (c3_make_paginated_rest_call_fail_aborts failServer 1000 1000 5
      [⟨0, 1000, none⟩, ⟨1, 999, some (.str "c")⟩] (.failure "boom") 1 "boom" rfl
      (by decide) rfl).2⟩

/-- C7 counterexample: a page whose body is the bare string `"oops"` —
not the expected paginated shape — does not make the fetch fail: the
fetch succeeds, returning the scalar as a single record. -/
theorem c7_make_paginated_rest_call_scalar_counterexample :
    make_paginated_rest_call scalarServer (some 1000) (some 1000) 5 =
      some ([⟨0, 1000, none⟩], .success [.str "oops"]) ∧
    isFailureOut (.success [.str "oops"]) = false :=
  ⟨rfl, rfl⟩

/-- C7 (amended): a page response whose body is neither a JSON object
nor an array is treated as a non-paginated fallback, wrapped as a
single-record page with no cursor: the loop appends that one value,
stops, and returns Success — it does not report a Failure. -/
theorem c7_fetchLoop_scalar_wrapped (server : Nat → PageResponse) (limit psz : Int)
    (fuel idx : Nat) (acc : List JsonVal) (cursor : Option JsonVal) (maxr : Int)
    (body : JsonVal) (hs : server idx = .ok body) (hb : isScalarBody body = true) :
    fetchLoop server limit psz (fuel + 1) idx acc cursor maxr =
      some ([⟨acc.length, maxr, if truthyOpt cursor = true then cursor else none⟩],
        .success (pySliceTo (acc ++ [body]) limit)) := by
  cases body <;> simp_all [fetchLoop, extractPage, truthyOpt, pyTruthy, isScalarBody]

/-- C7 witness: the amended theorem applied to the `"oops"` server on
the first request from an empty accumulator. -/
theorem c7_fetchLoop_scalar_wrapped_witness :
    scalarServer 0 = .ok (.str "oops") ∧ isScalarBody (.str "oops") = true ∧
    fetchLoop scalarServer 1000 1000 (4 + 1) 0 [] none 1000 =
      some ([⟨([] : List JsonVal).length, 1000,
        if truthyOpt none = true then none else none⟩],
        .success (pySliceTo (([] : List JsonVal) ++ [.str "oops"]) 1000)) :=
  ⟨rfl, rfl,
    c7_fetchLoop_scalar_wrapped scalarServer 1000 1000 4 0 [] none 1000 (.str "oops")
      rfl rfl⟩

end InfobloxNios
